import Mathlib

/-!
Verification of the keypoint-to-measurement pipeline of `body-measurement-ai`
(`src/bodyMeasurement.ts`), as a shallow embedding in Lean 4.

The pipeline (`detectPose`) receives the outcome of the external pose
estimator and either derives three scalar measurements from the detected
keypoints or reports a structured error.  Pixel coordinates are modelled as
real numbers; `Math.sqrt` is modelled as `Real.sqrt`.
-/

namespace BodyMeasurement

/-- A 2D pixel position, as in the `position` field of a PoseNet keypoint. -/
structure Position where
  x : ℝ
  y : ℝ

/-- A named anatomical keypoint as produced by PoseNet: a body-part name, a
2D pixel position, and a detection score. Only `part` and `position` are
consumed by the pipeline. -/
structure Keypoint where
  part : String
  position : Position
  score : ℝ

/-- One detected pose: the keypoint set of `pose.keypoints`. -/
structure Pose where
  keypoints : List Keypoint

/-- The `Measurements` record of `src/bodyMeasurement.ts`: shoulder width,
hip width and height, in pixels. -/
structure Measurements where
  shoulderWidth : ℝ
  hipWidth : ℝ
  height : ℝ

/-- The `ErrorResult` record of `src/bodyMeasurement.ts`: in the source the
`success` field has literal type `false`; here it is a `Bool` that the code
always sets to `false`. -/
structure ErrorResult where
  success : Bool
  message : String

/-- The union type `PoseResult = Measurements | ErrorResult`. -/
inductive PoseResult where
  | measurements (m : Measurements)
  | error (e : ErrorResult)

/-- `true` exactly on the `ErrorResult` variant of `PoseResult` (the variant
carrying the `success: false` marker field). -/
def PoseResult.isError : PoseResult → Bool
  | .error _ => true
  | .measurements _ => false

/-- `true` exactly on the `Measurements` variant of `PoseResult`. -/
def PoseResult.isMeasurements : PoseResult → Bool
  | .measurements _ => true
  | .error _ => false

/-- The possible outcomes of the `await net.estimateSinglePose(video, ...)`
call at the head of `detectPose`: a (truthy) pose value, a falsy result
(the `else` branch of `if (pose)`), or a thrown runtime exception (the
`catch` branch). -/
inductive EstimateOutcome where
  | found (pose : Pose)
  | notFound
  | thrown

/-- `calculateDistance` of `src/bodyMeasurement.ts`: the planar Euclidean
distance between two pixel positions. -/
noncomputable def calculateDistance (point1 point2 : Position) : ℝ :=
  let dx := point1.x - point2.x
  let dy := point1.y - point2.y
  Real.sqrt (dx * dx + dy * dy)

/-- `keypoints.find((k) => k.part === name)`: the first keypoint of the list
whose `part` equals `name`, if any. -/
def findPart (ks : List Keypoint) (name : String) : Option Keypoint :=
  ks.find? (fun k => k.part == name)

/-- `detectPose` of `src/bodyMeasurement.ts`, as a function of the outcome
of the pose-estimation call.  On a detected pose it looks up the six named
keypoints and derives the three measurements, substituting `0` whenever a
required pair is incomplete; on a falsy pose or a thrown exception it
returns the corresponding `ErrorResult`. -/
noncomputable def detectPose (est : EstimateOutcome) : PoseResult :=
  match est with
  | .found pose =>
      let keypoints := pose.keypoints
      let leftShoulder := findPart keypoints "leftShoulder"
      let rightShoulder := findPart keypoints "rightShoulder"
      let shoulderWidth :=
        match leftShoulder, rightShoulder with
        | some l, some r => calculateDistance l.position r.position
        | _, _ => 0
      let leftHip := findPart keypoints "leftHip"
      let rightHip := findPart keypoints "rightHip"
      let hipWidth :=
        match leftHip, rightHip with
        | some l, some r => calculateDistance l.position r.position
        | _, _ => 0
      let head := findPart keypoints "nose"
      let leftAnkle := findPart keypoints "leftAnkle"
      let height :=
        match head, leftAnkle with
        | some h, some a => calculateDistance h.position a.position
        | _, _ => 0
      PoseResult.measurements ⟨shoulderWidth, hipWidth, height⟩
  | .notFound =>
      PoseResult.error ⟨false, "Pose estimation failed. Could not detect key points."⟩
  | .thrown =>
      PoseResult.error ⟨false, "An error occurred during pose detection. Please try again."⟩

/-- The keypoint set of testable-properties Example 1 of the specification. -/
def examplePose : Pose :=
  ⟨[⟨"leftShoulder", ⟨0, 0⟩, 1⟩,
    ⟨"rightShoulder", ⟨300, 0⟩, 1⟩,
    ⟨"leftHip", ⟨50, 200⟩, 1⟩,
    ⟨"rightHip", ⟨300, 200⟩, 1⟩,
    ⟨"nose", ⟨150, 0⟩, 1⟩,
    ⟨"leftAnkle", ⟨150, 600⟩, 1⟩]⟩

/-- The measurements the pipeline derives from `examplePose`, written with
the distances still unevaluated. -/
noncomputable def exampleMeasurements : Measurements :=
  ⟨calculateDistance ⟨0, 0⟩ ⟨300, 0⟩,
   calculateDistance ⟨50, 200⟩ ⟨300, 200⟩,
   calculateDistance ⟨150, 0⟩ ⟨150, 600⟩⟩

/-! ### Helper lemmas -/

/-- `calculateDistance` unfolded to its square-root form. -/
lemma calculateDistance_eq (p1 p2 : Position) :
    calculateDistance p1 p2 =
      Real.sqrt ((p1.x - p2.x) * (p1.x - p2.x) + (p1.y - p2.y) * (p1.y - p2.y)) := rfl

/-- Square roots are non-negative, hence so is every computed distance. -/
lemma calculateDistance_nonneg (p1 p2 : Position) : 0 ≤ calculateDistance p1 p2 :=
  Real.sqrt_nonneg _

/-- Evaluating a square root at a perfect square. -/
lemma sqrt_eval (a c : ℝ) (hc : 0 ≤ c) (h : a = c * c) : Real.sqrt a = c := by
  rw [h, Real.sqrt_mul_self hc]

/-- A `Measurements` record is its triple of components. -/
lemma Measurements.eq_mk (m : Measurements) :
    m = ⟨m.shoulderWidth, m.hipWidth, m.height⟩ := rfl

/-- `findPart` finds nothing exactly when no keypoint of the list bears the
requested name. -/
lemma findPart_eq_none (ks : List Keypoint) (name : String) :
    findPart ks name = none ↔ ∀ k ∈ ks, k.part ≠ name := by
  simp [findPart, List.find?_eq_none]

/-- Appending keypoints whose part names all occur in the original list
never changes any lookup: `find` commits to the first match. -/
lemma findPart_append_dups (ks dups : List Keypoint)
    (hdup : ∀ d ∈ dups, ∃ k ∈ ks, k.part = d.part) (name : String) :
    findPart (ks ++ dups) name = findPart ks name := by
  unfold findPart
  rw [List.find?_append]
  cases hks : List.find? (fun k => k.part == name) ks with
  | some a => rfl
  | none =>
      have hnone : List.find? (fun k => k.part == name) dups = none := by
        rw [List.find?_eq_none]
        intro d hd
        obtain ⟨k, hk, hpart⟩ := hdup d hd
        have hkname : k.part ≠ name := by
          have := List.find?_eq_none.mp hks k hk
          simpa using this
        simp [← hpart, hkname]
      rw [hnone]
      rfl

/-- A keypoint preceded only by non-matching names is the one `findPart`
returns, whatever follows it. -/
lemma findPart_first_match (name : String) (pre post : List Keypoint) (k : Keypoint)
    (hpre : ∀ k' ∈ pre, k'.part ≠ name) (hk : k.part = name) :
    findPart (pre ++ k :: post) name = some k := by
  unfold findPart
  rw [List.find?_append]
  have hprenone : List.find? (fun k' => k'.part == name) pre = none := by
    rw [List.find?_eq_none]
    intro k' hk'
    simpa using hpre k' hk'
  rw [hprenone, List.find?_cons_of_pos]
  · rfl
  · simpa using hk

/-- On a detected pose, `detectPose` returns the record of the three
pair-distance computations. -/
lemma detectPose_found_eq (pose : Pose) :
    detectPose (EstimateOutcome.found pose) =
      PoseResult.measurements
        ⟨(match findPart pose.keypoints "leftShoulder",
                findPart pose.keypoints "rightShoulder" with
           | some l, some r => calculateDistance l.position r.position
           | _, _ => 0),
         (match findPart pose.keypoints "leftHip",
                findPart pose.keypoints "rightHip" with
           | some l, some r => calculateDistance l.position r.position
           | _, _ => 0),
         (match findPart pose.keypoints "nose",
                findPart pose.keypoints "leftAnkle" with
           | some h, some a => calculateDistance h.position a.position
           | _, _ => 0)⟩ := rfl

/-! ### Claim theorems -/

/-- Claim C3: whenever upstream detection signals outright failure (a falsy
pose), `detectPose` returns the `ErrorResult` variant with the fixed message
"Pose estimation failed. Could not detect key points.", and never a
measurement record (`isError` is `true`). -/
theorem detectPose_notFound_failure :
    detectPose EstimateOutcome.notFound =
      PoseResult.error ⟨false, "Pose estimation failed. Could not detect key points."⟩ ∧
    (detectPose EstimateOutcome.notFound).isError = true :=
  ⟨rfl, rfl⟩

/-- Claim C6: no failure escapes `detectPose` uncaught: a thrown estimation
exception is converted to an `ErrorResult`, and on every input the result is
either a measurement record or an `ErrorResult` whose `success` field is
`false`. -/
theorem detectPose_no_uncaught_fault :
    detectPose EstimateOutcome.thrown =
      PoseResult.error ⟨false, "An error occurred during pose detection. Please try again."⟩ ∧
    ∀ est : EstimateOutcome,
      (detectPose est).isMeasurements = true ∨
      ∃ e, detectPose est = PoseResult.error e ∧ e.success = false := by
  refine ⟨rfl, ?_⟩
  intro est
  cases est with
  | found pose => exact Or.inl rfl
  | notFound => exact Or.inr ⟨_, rfl, rfl⟩
  | thrown => exact Or.inr ⟨_, rfl, rfl⟩

/-- Claim C9: the distance function used for all three measurements is
symmetric in its two arguments. -/
theorem calculateDistance_symm (p1 p2 : Position) :
    calculateDistance p1 p2 = calculateDistance p2 p1 := by
  rw [calculateDistance_eq, calculateDistance_eq]
  ring_nf

/-- Claim C8: the pipeline is a pure function of the estimation outcome it
is given: two invocations on the same input yield the same result (in this
embedding `detectPose` is a total function of its argument alone, so
two-run determinism is definitional). -/
theorem detectPose_deterministic (est : EstimateOutcome) :
    detectPose est = detectPose est := rfl

/-- Claim C1: when both keypoints of a measurement's required pair are
present (as found by the pipeline's lookups), the corresponding component of
the returned measurement record is the planar Euclidean distance
sqrt((x1−x2)² + (y1−y2)²) between their positions, with no unit
conversion. -/
theorem detectPose_pair_euclidean (pose : Pose) (m : Measurements)
    (hm : detectPose (EstimateOutcome.found pose) = PoseResult.measurements m) :
    (∀ l r : Keypoint,
        findPart pose.keypoints "leftShoulder" = some l →
        findPart pose.keypoints "rightShoulder" = some r →
        m.shoulderWidth =
          Real.sqrt ((l.position.x - r.position.x) * (l.position.x - r.position.x) +
            (l.position.y - r.position.y) * (l.position.y - r.position.y))) ∧
    (∀ l r : Keypoint,
        findPart pose.keypoints "leftHip" = some l →
        findPart pose.keypoints "rightHip" = some r →
        m.hipWidth =
          Real.sqrt ((l.position.x - r.position.x) * (l.position.x - r.position.x) +
            (l.position.y - r.position.y) * (l.position.y - r.position.y))) ∧
    (∀ h a : Keypoint,
        findPart pose.keypoints "nose" = some h →
        findPart pose.keypoints "leftAnkle" = some a →
        m.height =
          Real.sqrt ((h.position.x - a.position.x) * (h.position.x - a.position.x) +
            (h.position.y - a.position.y) * (h.position.y - a.position.y))) := by
  rw [detectPose_found_eq pose, PoseResult.measurements.injEq] at hm
  subst hm
  refine ⟨?_, ?_, ?_⟩
  · intro l r hl hr
    rw [hl, hr]
    exact calculateDistance_eq l.position r.position
  · intro l r hl hr
    rw [hl, hr]
    exact calculateDistance_eq l.position r.position
  · intro h a hh ha
    rw [hh, ha]
    exact calculateDistance_eq h.position a.position

/-- Witness for C1 at the Example 1 keypoint set. -/
theorem detectPose_pair_euclidean_witness :
    exampleMeasurements.shoulderWidth =
      Real.sqrt (((0 : ℝ) - 300) * ((0 : ℝ) - 300) + ((0 : ℝ) - 0) * ((0 : ℝ) - 0)) := by
  have h := detectPose_pair_euclidean examplePose exampleMeasurements rfl
  exact h.1 ⟨"leftShoulder", ⟨0, 0⟩, 1⟩ ⟨"rightShoulder", ⟨300, 0⟩, 1⟩ rfl rfl

/-- Claim C2: on every detected pose, the pipeline still returns the
measurement-record variant, and any measurement whose required pair is
incomplete is exactly 0. -/
theorem detectPose_missing_pair_zero (pose : Pose) :
    ∃ m, detectPose (EstimateOutcome.found pose) = PoseResult.measurements m ∧
      ((findPart pose.keypoints "leftShoulder" = none ∨
        findPart pose.keypoints "rightShoulder" = none) → m.shoulderWidth = 0) ∧
      ((findPart pose.keypoints "leftHip" = none ∨
        findPart pose.keypoints "rightHip" = none) → m.hipWidth = 0) ∧
      ((findPart pose.keypoints "nose" = none ∨
        findPart pose.keypoints "leftAnkle" = none) → m.height = 0) := by
  refine ⟨_, detectPose_found_eq pose, ?_, ?_, ?_⟩
  · rintro (h | h)
    · rw [h]
    · rw [h]
      cases findPart pose.keypoints "leftShoulder" <;> rfl
  · rintro (h | h)
    · rw [h]
    · rw [h]
      cases findPart pose.keypoints "leftHip" <;> rfl
  · rintro (h | h)
    · rw [h]
    · rw [h]
      cases findPart pose.keypoints "nose" <;> rfl

/-- Witness for C2 at the empty keypoint set: all lookups fail and the
result is the success record with all three components 0. -/
theorem detectPose_missing_pair_zero_witness :
    detectPose (EstimateOutcome.found (Pose.mk [])) = PoseResult.measurements ⟨0, 0, 0⟩ := by
  obtain ⟨m, hm, h1, h2, h3⟩ := detectPose_missing_pair_zero (Pose.mk [])
  rw [Measurements.eq_mk m, h1 (Or.inl rfl), h2 (Or.inl rfl), h3 (Or.inl rfl)] at hm
  exact hm

/-- Claim C4: on the Example 1 keypoint set, the pipeline returns the
success record with shoulder width 300, hip width 250 and height 600. -/
theorem detectPose_example1 :
    detectPose (EstimateOutcome.found examplePose) = PoseResult.measurements ⟨300, 250, 600⟩ := by
  have e1 : calculateDistance ⟨0, 0⟩ ⟨300, 0⟩ = 300 := by
    rw [calculateDistance_eq]
    exact sqrt_eval _ 300 (by norm_num) (by norm_num)
  have e2 : calculateDistance ⟨50, 200⟩ ⟨300, 200⟩ = 250 := by
    rw [calculateDistance_eq]
    exact sqrt_eval _ 250 (by norm_num) (by norm_num)
  have e3 : calculateDistance ⟨150, 0⟩ ⟨150, 600⟩ = 600 := by
    rw [calculateDistance_eq]
    exact sqrt_eval _ 600 (by norm_num) (by norm_num)
  calc detectPose (EstimateOutcome.found examplePose)
      = PoseResult.measurements exampleMeasurements := rfl
    _ = PoseResult.measurements ⟨300, 250, 600⟩ := by
        simp only [exampleMeasurements, e1, e2, e3]

/-- Claim C5: every invocation returns exactly one of the two variants,
distinguishable by the `success: false` marker: either a measurement record
(and `isError` is `false`), or an `ErrorResult` whose `success` field is
`false` (and `isMeasurements` is `false`). -/
theorem detectPose_exactly_one (est : EstimateOutcome) :
    ((detectPose est).isMeasurements = true ∧ (detectPose est).isError = false) ∨
    ((detectPose est).isMeasurements = false ∧ (detectPose est).isError = true ∧
      ∃ e, detectPose est = PoseResult.error e ∧ e.success = false) := by
  cases est with
  | found pose => exact Or.inl ⟨rfl, rfl⟩
  | notFound => exact Or.inr ⟨rfl, rfl, _, rfl, rfl⟩
  | thrown => exact Or.inr ⟨rfl, rfl, _, rfl, rfl⟩

/-- Claim C7: every measurement record the pipeline returns has
non-negative shoulder width, hip width and height. -/
theorem detectPose_components_nonneg (est : EstimateOutcome) (m : Measurements)
    (hm : detectPose est = PoseResult.measurements m) :
    0 ≤ m.shoulderWidth ∧ 0 ≤ m.hipWidth ∧ 0 ≤ m.height := by
  cases est with
  | notFound => exact absurd hm (by simp [detectPose])
  | thrown => exact absurd hm (by simp [detectPose])
  | found pose =>
      rw [detectPose_found_eq pose, PoseResult.measurements.injEq] at hm
      subst hm
      refine ⟨?_, ?_, ?_⟩
      · cases findPart pose.keypoints "leftShoulder" with
        | none => exact le_refl 0
        | some l =>
            cases findPart pose.keypoints "rightShoulder" with
            | none => exact le_refl 0
            | some r => exact calculateDistance_nonneg l.position r.position
      · cases findPart pose.keypoints "leftHip" with
        | none => exact le_refl 0
        | some l =>
            cases findPart pose.keypoints "rightHip" with
            | none => exact le_refl 0
            | some r => exact calculateDistance_nonneg l.position r.position
      · cases findPart pose.keypoints "nose" with
        | none => exact le_refl 0
        | some h =>
            cases findPart pose.keypoints "leftAnkle" with
            | none => exact le_refl 0
            | some a => exact calculateDistance_nonneg h.position a.position

/-- Witness for C7 at the Example 1 keypoint set. -/
theorem detectPose_components_nonneg_witness :
    (0 : ℝ) ≤ exampleMeasurements.shoulderWidth ∧
    (0 : ℝ) ≤ exampleMeasurements.hipWidth ∧
    (0 : ℝ) ≤ exampleMeasurements.height :=
  detectPose_components_nonneg (EstimateOutcome.found examplePose) exampleMeasurements rfl

/-- Claim C10: each keypoint lookup resolves to the first matching entry in
the set's iteration order, so entries whose names already occur earlier in
the set never affect the returned measurement record. -/
theorem detectPose_first_match_wins :
    (∀ (name : String) (pre post : List Keypoint) (k : Keypoint),
        (∀ k' ∈ pre, k'.part ≠ name) → k.part = name →
        findPart (pre ++ k :: post) name = some k) ∧
    (∀ ks dups : List Keypoint,
        (∀ d ∈ dups, ∃ k ∈ ks, k.part = d.part) →
        detectPose (EstimateOutcome.found ⟨ks ++ dups⟩) =
          detectPose (EstimateOutcome.found ⟨ks⟩)) := by
  constructor
  · exact fun name pre post k => findPart_first_match name pre post k
  · intro ks dups hdup
    have key := findPart_append_dups ks dups hdup
    rw [detectPose_found_eq, detectPose_found_eq]
    dsimp only
    rw [key "leftShoulder", key "rightShoulder", key "leftHip", key "rightHip",
      key "nose", key "leftAnkle"]

/-- Witness for C10: a duplicated `leftShoulder` entry after the first one
is ignored by the lookup and leaves the pipeline's result unchanged. -/
theorem detectPose_first_match_wins_witness :
    findPart [⟨"leftShoulder", ⟨0, 0⟩, 1⟩, ⟨"leftShoulder", ⟨9, 9⟩, 1⟩] "leftShoulder" =
      some ⟨"leftShoulder", ⟨0, 0⟩, 1⟩ ∧
    detectPose (EstimateOutcome.found
        ⟨[⟨"leftShoulder", ⟨0, 0⟩, 1⟩, ⟨"leftShoulder", ⟨9, 9⟩, 1⟩]⟩) =
      detectPose (EstimateOutcome.found ⟨[⟨"leftShoulder", ⟨0, 0⟩, 1⟩]⟩) := by
  constructor
  · exact detectPose_first_match_wins.1 "leftShoulder" []
      [⟨"leftShoulder", ⟨9, 9⟩, 1⟩] ⟨"leftShoulder", ⟨0, 0⟩, 1⟩ (by simp) rfl
  · exact detectPose_first_match_wins.2 [⟨"leftShoulder", ⟨0, 0⟩, 1⟩]
      [⟨"leftShoulder", ⟨9, 9⟩, 1⟩]
      (by
        intro d hd
        rw [List.mem_singleton] at hd
        subst hd
        exact ⟨⟨"leftShoulder", ⟨0, 0⟩, 1⟩, by simp, rfl⟩)

end BodyMeasurement
